import Mathlib

/-!
Verification development for the screenshot-mcp server (src/index.js).

The server's behavior lives in PowerShell scripts assembled by JavaScript
template literals.  The definitions below are a shallow embedding of that
generated code, faithful to the source:

- JS template interpolation of an absent (undefined) argument renders the
  literal string "undefined"; the embedding models this with `interpS` /
  `interpN`.
- Single-quoted PowerShell values built through the JS helper
  `escPS(s) = String(s ?? '').replace(/'/g, "''")` round-trip: the doubled
  quotes un-escape when PowerShell reads the literal, so the PS-level value
  equals the original string (empty string for undefined); `psVal` models
  this.
- PowerShell string comparison (`-eq` / `-ne`) is case-insensitive; the
  embedding compares `toLower` images where the source uses them.
- `-like "*x*"` wildcard matching is modeled as case-insensitive substring
  containment (wildcard metacharacters inside the interpolated value are
  outside the model; no claim depends on them).
- Machine integers (window coordinates, handles) are modeled as `Int`;
  no arithmetic in the modeled paths can overflow Int64.
-/

/-- Decidable substring test on raw character lists: `pat` occurs inside `s`. -/
def strContains (s pat : String) : Bool :=
  (List.range (s.data.length + 1)).any (fun i => pat.data.isPrefixOf (s.data.drop i))

/-- ASCII lower-casing, character by character.  This equals the library's
`String.toLower` (see `strLower_eq_toLower` below) but recurses structurally
over the character list, so concrete instances evaluate inside the kernel.
It models .NET `ToLower` and PowerShell case-insensitive comparison at the
ASCII level; non-ASCII case folding is outside the model. -/
def strLower (s : String) : String :=
  ⟨s.data.map Char.toLower⟩

/-- Fuel-indexed worker for `strRemoveAll`: removes every non-overlapping
occurrence of `pat`, scanning left to right. -/
def removeAllAux (pat : List Char) : Nat → List Char → List Char
  | 0, l => l
  | _ + 1, [] => []
  | fuel + 1, c :: rest =>
    if !pat.isEmpty && pat.isPrefixOf (c :: rest) then
      removeAllAux pat fuel ((c :: rest).drop pat.length)
    else c :: removeAllAux pat fuel rest

/-- Model of .NET `String.Replace(pat, "")` for a non-empty pattern: every
non-overlapping occurrence of `pat` is removed, scanning left to right
(ordinal, case-sensitive).  Defined with fuel so that it recurses
structurally and evaluates inside the kernel. -/
def strRemoveAll (s pat : String) : String :=
  ⟨removeAllAux pat.data s.data.length s.data⟩

/-- JS template-literal interpolation of an optional string argument:
`undefined` renders as the literal text "undefined". -/
def interpS : Option String → String
  | none => "undefined"
  | some s => s

/-- JS template-literal interpolation of an optional numeric argument. -/
def interpN : Option Int → String
  | none => "undefined"
  | some k => toString k

/-- Value of a single-quoted PowerShell literal built via `escPS`:
`'${escPS(s)}'` evaluates in PowerShell back to the original string,
and `String(undefined ?? '')` is the empty string. -/
def psVal : Option String → String
  | none => ""
  | some s => s

/-- One visible, titled top-level window as reported by `EnumWindows` in
`Get-WindowsList` (src/index.js lines 273-296): handle, title, process id and
owning process name, plus the `IsIconic` minimized flag used later. -/
structure WindowInfo where
  handle : Int
  title : String
  pid : Int
  process : String
  minimized : Bool
  deriving Repr, DecidableEq

/-- Filter step of `Get-WindowsList` (src/index.js line 286): a window is kept
when the filter is empty or occurs case-insensitively in the title or in the
process name.  The input list stands for the visible, non-empty-titled
windows in OS enumeration order. -/
def getWindowsList (flt : String) (windows : List WindowInfo) : List WindowInfo :=
  windows.filter (fun w =>
    flt == "" || strContains (strLower w.title) (strLower flt)
      || strContains (strLower w.process) (strLower flt))

/-- Value of one hexadecimal digit (used by the `windowHandle` parser). -/
def hexVal (c : Char) : Int :=
  if c.isDigit then (c.toNat : Int) - ('0'.toNat : Int)
  else if 'a' ≤ c ∧ c ≤ 'f' then (c.toNat : Int) - ('a'.toNat : Int) + 10
  else if 'A' ≤ c ∧ c ≤ 'F' then (c.toNat : Int) - ('A'.toNat : Int) + 10
  else 0

/-- Hexadecimal digit test for the `windowHandle` parser. -/
def isHexDigit (c : Char) : Bool :=
  c.isDigit || ('a' ≤ c && c ≤ 'f') || ('A' ≤ c && c ≤ 'F')

/-- Parse of the `windowHandle` string (src/index.js line 303):
`ConvertToInt64(h, 16)` when the value matches `0x*` (case-insensitively),
otherwise the `int64` cast; a malformed string raises a PowerShell
conversion error, modeled as `none`. -/
def parseHandle (h : String) : Option Int :=
  if "0x".data.isPrefixOf (strLower h).data then
    let rest := (h.drop 2).data
    if !rest.isEmpty && rest.all isHexDigit then
      some (rest.foldl (fun a c => a * 16 + hexVal c) 0)
    else none
  else h.toInt?

/-- The arguments of a `take_screenshot` request (src/index.js lines 186-196),
after the JS defaulting of `allowFocus` and `restoreIfMinimized` to false. -/
structure TakeArgs where
  filename : Option String
  monitor : Option String
  windowTitle : Option String
  processName : Option String
  windowNumber : Option Int
  windowHandle : Option String
  filter : Option String
  allowFocus : Bool
  restoreIfMinimized : Bool
  deriving Repr, DecidableEq

/-- Guard of the handle branch (src/index.js line 301):
`'${windowHandleArg}' -ne '' -and '${windowHandleArg}' -ne 'undefined'`,
with PowerShell's case-insensitive `-ne`. -/
def handleFires (a : TakeArgs) : Bool :=
  interpS a.windowHandle != "" && strLower (interpS a.windowHandle) != "undefined"

/-- The `windowNumber` branch body (src/index.js lines 306-309): re-enumerate
with the filter, take element `k - 1`, or throw naming the range `1..count`. -/
def resolveByNumber (k : Int) (flt : String) (ws : List WindowInfo) : Except String Int :=
  if h : k - 1 < 0 ∨ ((getWindowsList flt ws).length : Int) ≤ k - 1 then
    .error ("Invalid windowNumber: " ++ toString k ++ ". Available: 1.."
      ++ toString (getWindowsList flt ws).length)
  else
    .ok ((getWindowsList flt ws).get ⟨(k - 1).toNat, by omega⟩).handle

/-- The `windowTitle` branch body (src/index.js lines 311-314): first window of
the filtered enumeration whose title contains the PS-level pattern,
case-insensitively; the thrown message interpolates the raw JS value. -/
def resolveByTitle (rawTitle psTitle flt : String) (ws : List WindowInfo) : Except String Int :=
  let list := getWindowsList flt ws
  match list.find? (fun w => strContains (strLower w.title) (strLower psTitle)) with
  | some w => .ok w.handle
  | none => .error ("No window found with title containing: " ++ rawTitle)

/-- The `processName` branch body (src/index.js lines 316-320): `.exe` removed
from the PS-level value by `String.Replace` (all occurrences, case-sensitive),
then first window whose process name contains the result, case-insensitively. -/
def resolveByProcess (rawProc psProc flt : String) (ws : List WindowInfo) : Except String Int :=
  let list := getWindowsList flt ws
  let search := strRemoveAll psProc ".exe"
  match list.find? (fun w => strContains (strLower w.process) (strLower search)) with
  | some w => .ok w.handle
  | none => .error ("No window found for process: " ++ rawProc)

/-- The selector chain (src/index.js lines 298-321) without the final Zero
check.  The `windowNumber` guard `-ne '' -and -ne 'undefined'` holds exactly
when the JS argument is present, since a JS number never stringifies to the
empty string or "undefined"; the `windowTitle` and `processName` guards test
only `-ne ''`, so an absent argument (interpolated as "undefined") passes
them — this asymmetry is in the source.  When no branch fires the PS `$target`
stays `IntPtr.Zero`, modeled as `.ok 0`. -/
def resolveChain (a : TakeArgs) (ws : List WindowInfo) : Except String Int :=
  let flt := psVal a.filter
  if handleFires a then
    match parseHandle (interpS a.windowHandle) with
    | some v => .ok v
    | none => .error ("Cannot convert value: " ++ interpS a.windowHandle)
  else
    match a.windowNumber with
    | some k => resolveByNumber k flt ws
    | none =>
      if interpS a.windowTitle != "" then
        resolveByTitle (interpS a.windowTitle) (psVal a.windowTitle) flt ws
      else if interpS a.processName != "" then
        resolveByProcess (interpS a.processName) (psVal a.processName) flt ws
      else .ok 0

/-- Full window resolution (src/index.js lines 298-323): the selector chain
followed by the `$target -eq IntPtr.Zero` throw. -/
def resolveTarget (a : TakeArgs) (ws : List WindowInfo) : Except String Int :=
  match resolveChain a ws with
  | .ok v => if v = 0 then .error "No target window resolved" else .ok v
  | .error m => .error m

/-- Padded, origin-clamped capture rectangle. -/
structure Bounds where
  left : Int
  top : Int
  width : Int
  height : Int
  deriving Repr, DecidableEq

/-- Bounds computation of the window-capture script (src/index.js lines
342-346): pad 10 on all sides, clamp the origin at 0, and derive width and
height from the padded right/bottom edge and the clamped origin. -/
def captureBounds (L T R B : Int) : Bounds :=
  let pad : Int := 10
  let left := max 0 (L - pad)
  let top := max 0 (T - pad)
  { left := left, top := top, width := (R + pad) - left, height := (B + pad) - top }

/-- Observable OS interactions of the window-capture script, in program
order.  `backgroundCapture` is the PrintWindow attempt on a bitmap of the
given size; `screenCopy` is the CopyFromScreen fallback on the given
rectangle; `refocus` records SetForegroundWindow on the previously focused
window. -/
inductive CaptureAction where
  | restoreWindow
  | backgroundCapture (width height : Int)
  | foregroundFocus
  | screenCopy (left top width height : Int)
  | saveFile
  | minimizeWindow
  | refocus (prev : Int)
  deriving Repr, DecidableEq

/-- Result of one run of the window-capture script: the ordered trace of OS
interactions, the outcome (thrown message or the Write-Host success text),
and whether the target window is minimized once the script ends. -/
structure CaptureRun where
  trace : List CaptureAction
  outcome : Except String String
  finalMinimized : Bool
  deriving Repr

/-- PS-level value of an interpolated Boolean option: the JS emits the
single-quoted literal '$true' or '$false' (src/index.js lines 233-234), so
the generated script (lines 267-268) assigns the verbatim five- or
six-character string — PowerShell single quotes suppress variable
expansion. -/
def psFlag (b : Bool) : String :=
  if b then "$true" else "$false"

/-- PowerShell truthiness of a string in a Boolean context: any non-empty
string converts to $true. -/
def psTruthy (s : String) : Bool := s != ""

/-- The window-capture state machine (src/index.js lines 325-378) for a
resolved target.  Environment inputs: `wasMin` is `IsIconic(target)` at
entry; `restoreOk` tells whether the bounded 40 x 50 ms poll observes the
window leave the minimized state after `SW_RESTORE`; `pwOk` is the Boolean
PrintWindow reports; `prevFg` is `GetForegroundWindow()` (`none` for
`IntPtr.Zero`).  A `throw` aborts the script, so the trailing
restore-state/refocus statements run only on the success paths.

The request options reach the script as the strings `psFlag restore` and
`psFlag allowFocus`, both non-empty and hence truthy: the `-not $psRestore`
StateError guard (line 327) never fires, the restore branch (line 331) runs
for every minimized window, and the `if ($psAllowFocus)` gate (line 358)
always takes the CopyFromScreen fallback, leaving the CaptureError throw
(line 368) dead.  The model keeps these branches exactly as the script has
them. -/
def captureWindow (wasMin restore allowFocus restoreOk pwOk : Bool)
    (rect : Int × Int × Int × Int) (prevFg : Option Int) : CaptureRun :=
  let psRestore := psFlag restore
  let psAllowFocus := psFlag allowFocus
  if wasMin && !(psTruthy psRestore) then
    { trace := []
      outcome := .error "Target window is minimized. Set restoreIfMinimized: true to capture."
      finalMinimized := wasMin }
  else
    let restoreTrace := if psTruthy psRestore && wasMin then [CaptureAction.restoreWindow] else []
    let minAfterRestore := wasMin && !restoreOk
    let b := captureBounds rect.1 rect.2.1 rect.2.2.1 rect.2.2.2
    let postTrace :=
      (if wasMin then [CaptureAction.minimizeWindow] else []) ++
      (match prevFg with
       | some p => [CaptureAction.refocus p]
       | none => [])
    if pwOk then
      { trace := restoreTrace ++ [CaptureAction.backgroundCapture b.width b.height,
          CaptureAction.saveFile] ++ postTrace
        outcome := .ok "Window screenshot saved successfully (background)"
        finalMinimized := wasMin || minAfterRestore }
    else if psTruthy psAllowFocus then
      { trace := restoreTrace ++ [CaptureAction.backgroundCapture b.width b.height,
          CaptureAction.foregroundFocus,
          CaptureAction.screenCopy b.left b.top b.width b.height,
          CaptureAction.saveFile] ++ postTrace
        outcome := .ok "Window screenshot saved successfully (foreground fallback)"
        finalMinimized := wasMin || minAfterRestore }
    else
      { trace := restoreTrace ++ [CaptureAction.backgroundCapture b.width b.height]
        outcome := .error "Background capture produced an invalid image for this app. Retry with allowFocus: true."
        finalMinimized := minAfterRestore }

/-- One display as reported by `Screen.AllScreens`: bounds origin and size
plus the primary flag. -/
structure Monitor where
  x : Int
  y : Int
  width : Int
  height : Int
  primary : Bool
  deriving Repr, DecidableEq

/-- Key order used by `Sort-Object \x7b $_.Bounds.X \x7d` (src/index.js line 404). -/
def monLE (a b : Monitor) : Prop := a.x ≤ b.x

instance : DecidableRel monLE := fun a b => Int.decLe a.x b.x

instance : IsTotal Monitor monLE := ⟨fun a b => Int.le_total a.x b.x⟩

instance : IsTrans Monitor monLE := ⟨fun _ _ _ => Int.le_trans⟩

/-- Strict companion of `monLE`, used to pin down sort results when the
horizontal origins are pairwise distinct. -/
def monLT (a b : Monitor) : Prop := a.x < b.x

instance : IsAntisymm Monitor monLT := ⟨fun _ _ h h' => absurd h' (lt_asymm h)⟩

/-- The monitor list sorted ascending by horizontal origin (line 404). -/
def sortByX (screens : List Monitor) : List Monitor :=
  List.insertionSort monLE screens

/-- Digit-string test matching the regex `^\d+$` of line 406. -/
def isDigitsStr (s : String) : Bool :=
  !s.isEmpty && s.data.all Char.isDigit

/-- Decimal value of a digit string (the `[int]` cast of line 406). -/
def decDigits (s : String) : Nat :=
  s.data.foldl (fun a c => a * 10 + (c.toNat - '0'.toNat)) 0

/-- Single-monitor resolution (src/index.js lines 404-407): `primary` (with
PowerShell's case-insensitive `-eq`) picks `Screen.PrimaryScreen`, modeled as
the first primary-flagged descriptor; a digit string indexes the sorted list,
throwing a range message naming `1 to count` when out of bounds; anything
else leaves `$target` null and throws. -/
def resolveMonitor (m : String) (screens : List Monitor) : Except String Monitor :=
  if strLower m == "primary" then
    match screens.find? (fun s => s.primary) with
    | some t => .ok t
    | none => .error ("Invalid monitor parameter: " ++ m)
  else if isDigitsStr m then
    if h : 0 ≤ (decDigits m : Int) - 1 ∧ (decDigits m : Int) - 1 < ((sortByX screens).length : Int) then
      .ok ((sortByX screens).get ⟨((decDigits m : Int) - 1).toNat, by omega⟩)
    else
      .error ("Monitor " ++ m ++ " not found. Available monitors: 1 to "
        ++ toString (sortByX screens).length)
  else .error ("Invalid monitor parameter: " ++ m)

/-- Size of the bitmap produced by the single-monitor script (lines 408-411):
exactly the selected monitor's bounds. -/
def captureMonitorSize (m : String) (screens : List Monitor) : Except String (Int × Int) :=
  match resolveMonitor m screens with
  | .ok t => .ok (t.width, t.height)
  | .error e => .error e

/-- JS truthiness of an optional string argument (empty string is falsy). -/
def truthyS : Option String → Bool
  | none => false
  | some s => s != ""

/-- JS truthiness of an optional number argument (0 is falsy). -/
def truthyN : Option Int → Bool
  | none => false
  | some k => k != 0

/-- The window-capture dispatch guard (src/index.js line 227):
`windowTitle || processName || windowNumber || windowHandleArg`. -/
def windowMode (a : TakeArgs) : Bool :=
  truthyS a.windowTitle || truthyS a.processName
    || truthyN a.windowNumber || truthyS a.windowHandle

/-- JS defaulting `monitor = arguments?.monitor || 'all'` (line 188). -/
def monitorArg (a : TakeArgs) : String :=
  match a.monitor with
  | none => "all"
  | some s => if s == "" then "all" else s

/-- JS defaulting `filename = arguments?.filename || 'screenshot.png'`. -/
def filenameArg (a : TakeArgs) : String :=
  match a.filename with
  | none => "screenshot.png"
  | some s => if s == "" then "screenshot.png" else s

/-- Caller-visible MCP tool response: the text content plus the `isError`
flag of the catch handler. -/
structure Payload where
  text : String
  isError : Bool
  deriving Repr, DecidableEq

/-- Per-request environment: the live window and monitor sets, whether
`fs.mkdir` succeeds, the OS answers consumed by the window-capture script for
the resolved target, and whether the output file exists at the final
`fs.access` check. -/
structure Env where
  windows : List WindowInfo
  monitors : List Monitor
  mkdirOk : Bool
  targetMinimized : Bool
  restoreOk : Bool
  rect : Int × Int × Int × Int
  pwOk : Bool
  prevFg : Option Int
  fileExists : Bool
  deriving Repr, DecidableEq

/-- The PowerShell stage of a `take_screenshot` request (src/index.js lines
224-419): window capture via the selector chain and the capture state
machine, the all-monitors script, or the single-monitor script; a thrown PS
error reaches the JS catch through the stderr scan `hasRealError` (lines
421-432), modeled as direct propagation of the thrown message. -/
def scriptOutcome (a : TakeArgs) (e : Env) : Except String String :=
  if windowMode a then
    match resolveTarget a e.windows with
    | .error m => .error m
    | .ok _ =>
      (captureWindow e.targetMinimized a.restoreIfMinimized a.allowFocus
        e.restoreOk e.pwOk e.rect e.prevFg).outcome
  else if monitorArg a == "all" then
    .ok "Screenshot saved successfully"
  else
    match resolveMonitor (monitorArg a) e.monitors with
    | .error m => .error m
    | .ok _ => .ok ("Screenshot of monitor " ++ monitorArg a ++ " saved successfully")

/-- The `take_screenshot` request handler (src/index.js lines 186-451).
`fs.mkdir` runs before the try block (line 222), so its rejection leaves the
handler as an uncaught fault, modeled as `Except.error`; everything after it
runs inside the try and lands in the catch handler, which builds a payload
with `isError := true` (lines 444-451). -/
def takeScreenshot (a : TakeArgs) (e : Env) : Except String Payload :=
  if !e.mkdirOk then
    .error "EACCES: permission denied, mkdir"
  else
    .ok (
      match scriptOutcome a e with
      | .error m => { text := "Failed to take screenshot: " ++ m, isError := true }
      | .ok _ =>
        if !e.fileExists then
          { text := "Failed to take screenshot: ENOENT: no such file or directory, access"
            isError := true }
        else
          { text := "Screenshot saved successfully to: screenshots/" ++ filenameArg a
            isError := false })

instance exceptDecEq {ε α : Type} [DecidableEq ε] [DecidableEq α] : DecidableEq (Except ε α) :=
  fun x y =>
  match x, y with
  | .ok a, .ok b => if h : a = b then .isTrue (by rw [h]) else .isFalse (by simp [h])
  | .error a, .error b => if h : a = b then .isTrue (by rw [h]) else .isFalse (by simp [h])
  | .ok _, .error _ => .isFalse (by simp)
  | .error _, .ok _ => .isFalse (by simp)

/-- Selector that the PrintWindow attempt corresponds to in a trace. -/
def isBgAttempt : CaptureAction → Bool
  | .backgroundCapture _ _ => true
  | _ => false

/-- Selector that the CopyFromScreen fallback corresponds to in a trace. -/
def isFgCopy : CaptureAction → Bool
  | .screenCopy _ _ _ _ => true
  | _ => false

/-- A capture attempt of either tier. -/
def isAttempt (x : CaptureAction) : Bool := isBgAttempt x || isFgCopy x

/-- The four window selectors, in the documented priority order. -/
inductive Selector where
  | handle
  | number
  | title
  | process
  deriving Repr, DecidableEq

/-- An explicit handle selector is supplied: present, non-empty and not the
literal "undefined" (the values the guard at src/index.js line 301 accepts). -/
def handleSupplied (a : TakeArgs) : Bool :=
  match a.windowHandle with
  | some s => s != "" && strLower s != "undefined"
  | none => false

/-- An enumeration-index selector is supplied. -/
def numberSupplied (a : TakeArgs) : Bool := a.windowNumber.isSome

/-- A title-substring selector is supplied (non-empty). -/
def titleSupplied (a : TakeArgs) : Bool :=
  match a.windowTitle with
  | some s => s != ""
  | none => false

/-- A process-substring selector is supplied (non-empty). -/
def processSupplied (a : TakeArgs) : Bool :=
  match a.processName with
  | some s => s != ""
  | none => false

/-- How many window selectors the request supplies. -/
def suppliedCount (a : TakeArgs) : Nat :=
  (cond (handleSupplied a) 1 0) + (cond (numberSupplied a) 1 0)
    + (cond (titleSupplied a) 1 0) + (cond (processSupplied a) 1 0)

/-- Modelled from the spec: the selector the documented fixed priority
handle > enumeration index > title substring > process substring honors. -/
def honoredSelector (a : TakeArgs) : Option Selector :=
  if handleSupplied a then some .handle
  else if numberSupplied a then some .number
  else if titleSupplied a then some .title
  else if processSupplied a then some .process
  else none

/-- Modelled from the spec: the request with every selector other than `s`
removed, used to state that the non-honored selectors are ignored. -/
def restrictTo (a : TakeArgs) : Selector → TakeArgs
  | .handle => { a with windowNumber := none, windowTitle := none, processName := none }
  | .number => { a with windowHandle := none, windowTitle := none, processName := none }
  | .title => { a with windowHandle := none, windowNumber := none, processName := none }
  | .process => { a with windowHandle := none, windowNumber := none, windowTitle := none }

/-- A request with no arguments supplied (all JS fields undefined, Booleans
already defaulted to false). -/
def noArgs : TakeArgs :=
  { filename := none, monitor := none, windowTitle := none, processName := none,
    windowNumber := none, windowHandle := none, filter := none,
    allowFocus := false, restoreIfMinimized := false }

/-- A concrete two-window enumeration used by the concrete theorems: the
first window belongs to explorer, the second to notepad. -/
def exWindows : List WindowInfo :=
  [{ handle := 5, title := "Editor", pid := 100, process := "explorer", minimized := false },
   { handle := 7, title := "Notes", pid := 200, process := "notepad", minimized := false }]

/-- A concrete two-monitor configuration, reported right-monitor-first. -/
def exMonitors : List Monitor :=
  [{ x := 1920, y := 0, width := 800, height := 600, primary := false },
   { x := 0, y := 0, width := 1920, height := 1080, primary := true }]

/-- A benign request environment over `exWindows` and `exMonitors`. -/
def exEnv : Env :=
  { windows := exWindows, monitors := exMonitors, mkdirOk := true,
    targetMinimized := false, restoreOk := true, rect := (0, 0, 100, 50), pwOk := true,
    prevFg := some 3, fileExists := true }

/-- Concrete request supplying both a title and a process selector. -/
def exArgsTitleProc : TakeArgs :=
  { noArgs with windowTitle := some "Not", processName := some "explorer" }

/-- The interpolated option strings "$true" and "$false" are both non-empty
and hence truthy in PowerShell. -/
theorem psFlag_truthy (b : Bool) : psTruthy (psFlag b) = true := by
  cases b <;> decide

/-- C4: evaluation at the failing input.  A minimized window with
restoreIfMinimized false is not rejected: $psRestore holds the single-quoted
string '$false', which is truthy, so the `-not $psRestore` StateError guard
(src/index.js line 327) never fires; the restore branch (line 331) runs, a
PrintWindow attempt is made, and the capture succeeds — contradicting the
claimed StateError with no capture attempt. -/
theorem c4_minimized_without_restore_bug :
    (captureWindow true false false true true (0, 0, 100, 50) (some 3)).outcome
      = .ok "Window screenshot saved successfully (background)"
    ∧ CaptureAction.restoreWindow
        ∈ (captureWindow true false false true true (0, 0, 100, 50) (some 3)).trace
    ∧ CaptureAction.backgroundCapture 110 60
        ∈ (captureWindow true false false true true (0, 0, 100, 50) (some 3)).trace := by
  refine ⟨by decide, by decide, by decide⟩

/-- C3: the PrintWindow background attempt always comes first among capture
attempts and the CopyFromScreen fallback runs exactly when background capture
reports failure — but the allowFocus gate is ineffective: $psAllowFocus holds
the single-quoted string '$false', which is truthy, so with allowFocus false
and a failed PrintWindow the script still focuses the window and copies from
the screen (src/index.js line 358), and the CaptureError throw at line 368 is
dead code — contradicting the claimed immediate CaptureError with no
foreground attempt. -/
theorem c3_background_first_fallback_not_gated :
    (∀ (wasMin restore allowFocus restoreOk pwOk : Bool)
        (rect : Int × Int × Int × Int) (prevFg : Option Int),
      ((captureWindow wasMin restore allowFocus restoreOk pwOk rect prevFg).trace.filter
          isAttempt).head?.map isBgAttempt = some true
      ∧ (captureWindow wasMin restore allowFocus restoreOk pwOk rect prevFg).trace.any isFgCopy
          = !pwOk)
    ∧ (captureWindow false false false true false (0, 0, 100, 50) (some 3)).outcome
        = .ok "Window screenshot saved successfully (foreground fallback)"
    ∧ CaptureAction.foregroundFocus
        ∈ (captureWindow false false false true false (0, 0, 100, 50) (some 3)).trace
    ∧ CaptureAction.screenCopy 0 0 110 60
        ∈ (captureWindow false false false true false (0, 0, 100, 50) (some 3)).trace := by
  refine ⟨?_, by decide, by decide, by decide⟩
  intro wasMin restore allowFocus restoreOk pwOk rect prevFg
  obtain ⟨L, T, R, B⟩ := rect
  cases wasMin <;> cases restore <;> cases allowFocus <;> cases pwOk <;> cases prevFg <;>
    simp [captureWindow, psFlag_truthy, isAttempt, isBgAttempt, isFgCopy]

/-- C10: evaluation at the failing input.  The claimed error path is
unreachable: with a restored minimized window, a failed PrintWindow and
allowFocus false, the script does not throw — $psAllowFocus holds the truthy
string '$false', so the foreground fallback runs, the capture succeeds, and
the re-minimize and refocus steps (src/index.js lines 376-378) both execute,
contradicting the claim that the window is left restored with focus
unrestored after an error. -/
theorem c10_restoration_runs_on_dead_error_path :
    (captureWindow true true false true false (0, 0, 100, 50) (some 3)).outcome
      = .ok "Window screenshot saved successfully (foreground fallback)"
    ∧ CaptureAction.minimizeWindow
        ∈ (captureWindow true true false true false (0, 0, 100, 50) (some 3)).trace
    ∧ CaptureAction.refocus 3
        ∈ (captureWindow true true false true false (0, 0, 100, 50) (some 3)).trace
    ∧ (captureWindow true true false true false (0, 0, 100, 50) (some 3)).finalMinimized
        = true := by
  refine ⟨by decide, by decide, by decide, by decide⟩

/-- C6: when a minimized window is captured with restoreIfMinimized true and a
capture path succeeds, the script re-minimizes the window (post-state
Minimized), refocuses the previously focused window whenever one exists — in
particular whenever it differs from the target — and the successful outcome is
never reverted by these best-effort steps. -/
theorem c6_restore_after_success (wasMin restore allowFocus restoreOk pwOk : Bool)
    (rect : Int × Int × Int × Int) (prevFg : Option Int) (target : Int)
    (hMin : wasMin = true) (hRestore : restore = true)
    (hOk : pwOk = true ∨ allowFocus = true) :
    (captureWindow wasMin restore allowFocus restoreOk pwOk rect prevFg).outcome.isOk = true
    ∧ CaptureAction.minimizeWindow
        ∈ (captureWindow wasMin restore allowFocus restoreOk pwOk rect prevFg).trace
    ∧ (captureWindow wasMin restore allowFocus restoreOk pwOk rect prevFg).finalMinimized = true
    ∧ (∀ p, prevFg = some p → p ≠ target → CaptureAction.refocus p
        ∈ (captureWindow wasMin restore allowFocus restoreOk pwOk rect prevFg).trace) := by
  subst hMin hRestore
  obtain ⟨L, T, R, B⟩ := rect
  cases pwOk <;> cases allowFocus <;> cases prevFg <;>
    simp_all [captureWindow, psFlag_truthy, Except.isOk, Except.toBool]

/-- C6 witness: minimized window, restore allowed, background capture
succeeds, a distinct previous foreground window exists. -/
theorem c6_restore_after_success_witness :
    (captureWindow true true false true true (0, 0, 100, 50) (some 3)).outcome.isOk = true
    ∧ CaptureAction.minimizeWindow
        ∈ (captureWindow true true false true true (0, 0, 100, 50) (some 3)).trace
    ∧ (captureWindow true true false true true (0, 0, 100, 50) (some 3)).finalMinimized = true
    ∧ (∀ p, (some 3 : Option Int) = some p → p ≠ 9 → CaptureAction.refocus p
        ∈ (captureWindow true true false true true (0, 0, 100, 50) (some 3)).trace) :=
  c6_restore_after_success true true false true true (0, 0, 100, 50) (some 3) 9
    rfl rfl (Or.inl rfl)

/-- C5: for a window whose reported screen rectangle is (L,T,R,B) and the
fixed padding 10, the capture bounds equal origin (max(0,L-10), max(0,T-10))
with width (R+10)-max(0,L-10) and height (B+10)-max(0,T-10), and both the
PrintWindow bitmap and any CopyFromScreen call use exactly these bounds. -/
theorem c5_capture_bounds (L T R B : Int) (wasMin restore allowFocus restoreOk pwOk : Bool)
    (prevFg : Option Int) (hState : wasMin = true → restore = true) :
    captureBounds L T R B
      = { left := max 0 (L - 10), top := max 0 (T - 10),
          width := (R + 10) - max 0 (L - 10), height := (B + 10) - max 0 (T - 10) }
    ∧ CaptureAction.backgroundCapture (captureBounds L T R B).width (captureBounds L T R B).height
        ∈ (captureWindow wasMin restore allowFocus restoreOk pwOk (L, T, R, B) prevFg).trace
    ∧ (∀ l t w h, CaptureAction.screenCopy l t w h
        ∈ (captureWindow wasMin restore allowFocus restoreOk pwOk (L, T, R, B) prevFg).trace →
        l = (captureBounds L T R B).left ∧ t = (captureBounds L T R B).top
          ∧ w = (captureBounds L T R B).width ∧ h = (captureBounds L T R B).height) := by
  refine ⟨by simp [captureBounds], ?_, ?_⟩ <;>
    cases wasMin <;> cases restore <;> cases pwOk <;> cases allowFocus <;> cases prevFg <;>
      simp_all [captureWindow, psFlag_truthy]

/-- C5 witness: a partly off-screen window (negative left/top) on the
fallback path. -/
theorem c5_capture_bounds_witness :
    captureBounds (-5) (-3) 100 50
      = { left := max 0 ((-5 : Int) - 10), top := max 0 ((-3 : Int) - 10),
          width := (100 + 10) - max 0 ((-5 : Int) - 10),
          height := (50 + 10) - max 0 ((-3 : Int) - 10) }
    ∧ CaptureAction.backgroundCapture (captureBounds (-5) (-3) 100 50).width
          (captureBounds (-5) (-3) 100 50).height
        ∈ (captureWindow false false true true false ((-5), (-3), 100, 50) (some 3)).trace
    ∧ (∀ l t w h, CaptureAction.screenCopy l t w h
        ∈ (captureWindow false false true true false ((-5), (-3), 100, 50) (some 3)).trace →
        l = (captureBounds (-5) (-3) 100 50).left ∧ t = (captureBounds (-5) (-3) 100 50).top
          ∧ w = (captureBounds (-5) (-3) 100 50).width
          ∧ h = (captureBounds (-5) (-3) 100 50).height) :=
  c5_capture_bounds (-5) (-3) 100 50 false false true true false (some 3) (fun h => by cases h)

/-- C7: evaluation at the failing input.  A request whose only selector is
processName = "notepad" against an enumeration whose first window belongs to
explorer and whose second belongs to notepad resolves to the explorer window
(handle 5): the windowTitle branch fires because the unset windowTitle
interpolates to the literal string "undefined", which passes the `-ne ''`
guard, and its empty PS-level pattern matches every title.  The processName
branch is never consulted; with an empty enumeration the request fails, but
with the windowTitle branch's message naming "undefined". -/
theorem c7_processName_selector_hijacked :
    resolveTarget { noArgs with processName := some "notepad" } exWindows = .ok 5
    ∧ (exWindows.head?.map WindowInfo.process) = some "explorer"
    ∧ strContains (strLower "explorer") (strLower "notepad") = false
    ∧ (exWindows.get? 1).map WindowInfo.process = some "notepad"
    ∧ resolveTarget { noArgs with processName := some "notepad" } []
        = .error "No window found with title containing: undefined" := by
  refine ⟨by decide, by decide, by decide, by decide, by decide⟩

/-- C2 counterexample: with windowNumber = 0 against a two-window filtered
enumeration, the claim demands a ResolutionError naming the range [1, 2]; the
code instead drops the selector at the JS truthiness guard (0 is falsy) and
performs a successful all-monitors capture. -/
theorem c2_zero_windowNumber_counterexample :
    takeScreenshot { noArgs with windowNumber := some 0 } exEnv
      = .ok { text := "Screenshot saved successfully to: screenshots/screenshot.png",
              isError := false }
    ∧ (getWindowsList "" exWindows).length = 2 := by
  refine ⟨by decide, by decide⟩

/-- C2 (amended): with windowNumber = k as the only selector, 1 ≤ k ≤ count
captures the k-th element (1-indexed) of the filtered enumeration and
k > count fails with the ResolutionError naming the range 1..count, but k = 0
is falsy at the JS dispatch guard, so the request is not treated as a window
capture at all and no ResolutionError is produced. -/
theorem c2_windowNumber_resolution (k : Int) (flt : String) (ws : List WindowInfo) :
    (1 ≤ k → k ≤ ((getWindowsList flt ws).length : Int) →
      ∃ w, (getWindowsList flt ws).get? (k - 1).toNat = some w
        ∧ resolveByNumber k flt ws = .ok w.handle)
    ∧ (((getWindowsList flt ws).length : Int) < k →
      resolveByNumber k flt ws
        = .error ("Invalid windowNumber: " ++ toString k ++ ". Available: 1.."
            ++ toString (getWindowsList flt ws).length))
    ∧ (∀ a : TakeArgs, a.windowNumber = some 0 → a.windowTitle = none →
        a.processName = none → a.windowHandle = none → windowMode a = false) := by
  refine ⟨?_, ?_, ?_⟩
  · intro h1 h2
    refine ⟨(getWindowsList flt ws).get ⟨(k - 1).toNat, by omega⟩,
      List.get?_eq_get (by omega), ?_⟩
    unfold resolveByNumber
    rw [dif_neg (by omega)]
  · intro h
    unfold resolveByNumber
    rw [dif_pos (by omega)]
  · intro a h0 ht hp hh
    simp [windowMode, truthyS, truthyN, h0, ht, hp, hh]

/-- C2 amended witness: windowNumber = 2 selects the second window,
windowNumber = 3 yields the range error, and windowNumber = 0 falls out of
window mode. -/
theorem c2_windowNumber_resolution_witness :
    (∃ w, (getWindowsList "" exWindows).get? ((2 : Int) - 1).toNat = some w
      ∧ resolveByNumber 2 "" exWindows = .ok w.handle)
    ∧ resolveByNumber 3 "" exWindows
        = .error ("Invalid windowNumber: " ++ toString (3 : Int) ++ ". Available: 1.."
            ++ toString (getWindowsList "" exWindows).length)
    ∧ windowMode { noArgs with windowNumber := some 0 } = false :=
  ⟨(c2_windowNumber_resolution 2 "" exWindows).1 (by decide) (by decide),
   (c2_windowNumber_resolution 3 "" exWindows).2.1 (by decide),
   (c2_windowNumber_resolution 3 "" exWindows).2.2 { noArgs with windowNumber := some 0 }
     rfl rfl rfl rfl⟩

/-- C9 counterexample: when `fs.mkdir` fails (line 222, outside the try
block), the rejection leaves the request handler as an uncaught fault
instead of a caller-visible error payload, refuting the claim that every
failure is caught at the request boundary. -/
theorem c9_mkdir_failure_uncaught :
    takeScreenshot noArgs { exEnv with mkdirOk := false }
      = .error "EACCES: permission denied, mkdir" := by
  decide

/-- C9 (amended): under a successful mkdir, every failure raised inside the
try block is caught and converted to the caller-visible payload with the
isError flag set and the diagnostic text naming the failure — a thrown script
error m becomes the payload "Failed to take screenshot: m" with isError true,
and a missing output file after a reported script success becomes the ENOENT
payload with isError true — and the handler always returns a payload rather
than a fault; but a directory-creation failure happens before the try block
and escapes the handler as an uncaught fault. -/
theorem c9_error_containment (a : TakeArgs) (e : Env) :
    (e.mkdirOk = true →
      (∀ m, scriptOutcome a e = .error m →
        takeScreenshot a e
          = .ok { text := "Failed to take screenshot: " ++ m, isError := true })
      ∧ (∀ s, scriptOutcome a e = .ok s → e.fileExists = false →
        takeScreenshot a e
          = .ok { text := "Failed to take screenshot: ENOENT: no such file or directory, access"
                  isError := true })
      ∧ (∃ p, takeScreenshot a e = .ok p))
    ∧ (e.mkdirOk = false →
      takeScreenshot a e = .error "EACCES: permission denied, mkdir") := by
  constructor
  · intro hmk
    refine ⟨?_, ?_, ?_⟩
    · intro m hm
      unfold takeScreenshot
      rw [hmk, hm]
      rfl
    · intro s hs hf
      unfold takeScreenshot
      rw [hmk, hs, hf]
      rfl
    · rcases h : scriptOutcome a e with m | s
      · exact ⟨_, by unfold takeScreenshot; rw [hmk, h]; rfl⟩
      · cases hf : e.fileExists
        · exact ⟨_, by unfold takeScreenshot; rw [hmk, h, hf]; rfl⟩
        · exact ⟨_, by unfold takeScreenshot; rw [hmk, h, hf]; rfl⟩
  · intro hmk
    unfold takeScreenshot
    rw [hmk]
    rfl

/-- C9 amended witness: a failing window resolution is converted to the
isError payload carrying its diagnostic, a missing output file after a
successful script is converted to the ENOENT isError payload, and a benign
request yields a payload. -/
theorem c9_error_containment_witness :
    takeScreenshot { noArgs with windowTitle := some "zzz" } exEnv
      = .ok { text := "Failed to take screenshot: No window found with title containing: zzz"
              isError := true }
    ∧ takeScreenshot noArgs { exEnv with fileExists := false }
        = .ok { text := "Failed to take screenshot: ENOENT: no such file or directory, access"
                isError := true }
    ∧ (∃ p, takeScreenshot noArgs exEnv = .ok p) :=
  ⟨((c9_error_containment { noArgs with windowTitle := some "zzz" } exEnv).1 rfl).1
      "No window found with title containing: zzz" (by decide),
   ((c9_error_containment noArgs { exEnv with fileExists := false }).1 rfl).2.1
      "Screenshot saved successfully" (by decide) rfl,
   ((c9_error_containment noArgs exEnv).1 rfl).2.2⟩

/-- The PS handle-branch guard fires exactly when a well-formed handle
selector is supplied. -/
theorem handleFires_eq (a : TakeArgs) : handleFires a = handleSupplied a := by
  cases h : a.windowHandle with
  | none => simp only [handleFires, handleSupplied, interpS, h]; decide
  | some s => simp [handleFires, handleSupplied, interpS, h]

/-- A supplied handle selector is truthy at the JS dispatch guard. -/
theorem truthyS_of_handleSupplied (a : TakeArgs) (h : handleSupplied a = true) :
    truthyS a.windowHandle = true := by
  cases hh : a.windowHandle <;> simp_all [handleSupplied, truthyS]

/-- A supplied title selector is truthy at the JS dispatch guard. -/
theorem truthyS_of_titleSupplied (a : TakeArgs) (h : titleSupplied a = true) :
    truthyS a.windowTitle = true := by
  cases hh : a.windowTitle <;> simp_all [titleSupplied, truthyS]

/-- A supplied process selector is truthy at the JS dispatch guard. -/
theorem truthyS_of_processSupplied (a : TakeArgs) (h : processSupplied a = true) :
    truthyS a.processName = true := by
  cases hh : a.processName <;> simp_all [processSupplied, truthyS]

/-- A request carrying at least two selectors enters the window-capture
branch of the JS dispatch. -/
theorem windowMode_of_two_selectors (a : TakeArgs) (hTwo : 2 ≤ suppliedCount a) :
    windowMode a = true := by
  by_cases hH : handleSupplied a = true
  · simp [windowMode, truthyS_of_handleSupplied a hH]
  · by_cases hT : titleSupplied a = true
    · simp [windowMode, truthyS_of_titleSupplied a hT]
    · by_cases hP : processSupplied a = true
      · simp [windowMode, truthyS_of_processSupplied a hP]
      · exfalso
        simp only [Bool.not_eq_true] at hH hT hP
        simp [suppliedCount, hH, hT, hP] at hTwo
        cases hn : numberSupplied a <;> simp [hn] at hTwo

/-- C1: a take_screenshot request supplying more than one window selector
enters the window-capture path and resolves through exactly one selector,
the highest-priority supplied one (handle > enumeration index > title
substring > process-name substring): resolution is unchanged when every
other selector is removed. -/
theorem c1_selector_priority (a : TakeArgs) (ws : List WindowInfo)
    (hTwo : 2 ≤ suppliedCount a) :
    windowMode a = true
    ∧ ∃ s, honoredSelector a = some s
        ∧ resolveTarget a ws = resolveTarget (restrictTo a s) ws := by
  have hne : (("undefined" : String) != "") = true := by decide
  have hnl : (strLower "undefined" != "undefined") = false := by decide
  refine ⟨windowMode_of_two_selectors a hTwo, ?_⟩
  by_cases hH : handleSupplied a = true
  · refine ⟨.handle, by simp [honoredSelector, hH], ?_⟩
    obtain ⟨s, hs, hg⟩ : ∃ s, a.windowHandle = some s
        ∧ (s != "" && strLower s != "undefined") = true := by
      cases h : a.windowHandle with
      | none => simp [handleSupplied, h] at hH
      | some s =>
        refine ⟨s, rfl, ?_⟩
        simpa [handleSupplied, h, Bool.and_eq_true] using hH
    simp [resolveTarget, resolveChain, handleFires, restrictTo, hs, interpS, hg]
  · have hHf : handleSupplied a = false := by simpa using hH
    have hguard : ∀ b : TakeArgs, b.windowHandle = a.windowHandle → handleFires b = false := by
      intro b hb
      rw [handleFires_eq]
      cases h : a.windowHandle with
      | none => simp [handleSupplied, hb, h]
      | some s =>
        rw [handleSupplied, hb, h]
        simpa [handleSupplied, h] using hHf
    have hguardN : ∀ b : TakeArgs, b.windowHandle = none → handleFires b = false := by
      intro b hb
      rw [handleFires_eq]
      simp [handleSupplied, hb]
    by_cases hN : numberSupplied a = true
    · obtain ⟨k, hk⟩ := Option.isSome_iff_exists.mp hN
      refine ⟨.number, by simp [honoredSelector, hH, hN], ?_⟩
      have hfa : handleFires a = false := hguard a rfl
      have hfr : handleFires (restrictTo a .number) = false := hguardN _ rfl
      simp only [resolveTarget, resolveChain, hfa, hfr]
      simp [restrictTo, hk]
    · have hT : titleSupplied a = true := by
        by_contra hT
        simp only [Bool.not_eq_true] at hH hN hT
        simp [suppliedCount, hH, hN, hT] at hTwo
        cases hP : processSupplied a <;> simp [hP] at hTwo
      obtain ⟨t, ht, htne⟩ : ∃ t, a.windowTitle = some t ∧ (t != "") = true := by
        cases h : a.windowTitle with
        | none => simp [titleSupplied, h] at hT
        | some t => exact ⟨t, rfl, by simpa [titleSupplied, h] using hT⟩
      have hNn : a.windowNumber = none := by
        cases h : a.windowNumber with
        | none => rfl
        | some k => simp [numberSupplied, h] at hN
      refine ⟨.title, by simp [honoredSelector, hH, hN, hT], ?_⟩
      have hfa : handleFires a = false := hguard a rfl
      have hfr : handleFires (restrictTo a .title) = false := hguardN _ rfl
      simp only [resolveTarget, resolveChain, hfa, hfr]
      simp [restrictTo, hNn, ht, interpS, psVal, htne]

/-- C1 witness: a request supplying both a title and a process selector
against the concrete enumeration. -/
theorem c1_selector_priority_witness :
    windowMode exArgsTitleProc = true
    ∧ ∃ s, honoredSelector exArgsTitleProc = some s
        ∧ resolveTarget exArgsTitleProc exWindows
            = resolveTarget (restrictTo exArgsTitleProc s) exWindows :=
  c1_selector_priority exArgsTitleProc exWindows (by decide)

/-- Lower-casing fixes a decimal digit. -/
theorem toLower_digit (c : Char) (h : c.isDigit = true) : c.toLower = c := by
  simp [Char.isDigit] at h
  unfold Char.toLower
  simp only [Char.toNat]
  have h2 : c.val.toNat ≤ 57 := h.2
  have hn : ¬(c.val.toNat ≥ 65 ∧ c.val.toNat ≤ 90) := by omega
  simp [hn]

/-- Lower-casing fixes a list of decimal digits. -/
theorem map_toLower_digits (l : List Char) (h : l.all Char.isDigit = true) :
    l.map Char.toLower = l := by
  induction l with
  | nil => rfl
  | cons c tl ih =>
    simp only [List.all_cons, Bool.and_eq_true] at h
    simp [toLower_digit c h.1, ih h.2]

/-- Lower-casing fixes a digit string. -/
theorem strLower_digits (m : String) (h : m.data.all Char.isDigit = true) :
    strLower m = m := by
  cases m with
  | mk data =>
    simp only [strLower]
    exact congrArg String.mk (map_toLower_digits data h)

/-- A digit string never passes the case-insensitive "primary" test. -/
theorem digits_not_primary (m : String) (h : isDigitsStr m = true) :
    (strLower m == "primary") = false := by
  by_contra hc
  simp only [Bool.not_eq_false, beq_iff_eq] at hc
  simp only [isDigitsStr, Bool.and_eq_true] at h
  rw [strLower_digits m h.2] at hc
  rw [hc] at h
  exact absurd h.2 (by decide)

/-- `find?` returns the unique element satisfying the predicate. -/
theorem find_primary_of_unique (l : List Monitor) (t : Monitor) (ht : t ∈ l)
    (hp : t.primary = true) (hu : ∀ u, u ∈ l → u.primary = true → u = t) :
    l.find? (fun s => s.primary) = some t := by
  induction l with
  | nil => cases ht
  | cons a tl ih =>
    by_cases ha : a.primary = true
    · have hat : a = t := hu a (List.mem_cons_self a tl) ha
      subst hat
      simp [List.find?_cons_of_pos, ha]
    · rw [List.find?_cons_of_neg _ (by simpa using ha)]
      have ht' : t ∈ tl := by
        rcases List.mem_cons.mp ht with h | h
        · exact absurd (h ▸ hp) ha
        · exact h
      exact ih ht' (fun u hu' hp' => hu u (List.mem_cons_of_mem _ hu') hp')

/-- Sorting by horizontal origin is independent of the input order when the
origins are pairwise distinct. -/
theorem sortByX_perm_eq (l₁ l₂ : List Monitor) (hp : l₁.Perm l₂)
    (hd : l₁.Pairwise (fun a b => a.x ≠ b.x)) : sortByX l₁ = sortByX l₂ := by
  have hs₁ : (sortByX l₁).Sorted monLE := List.sorted_insertionSort monLE l₁
  have hs₂ : (sortByX l₂).Sorted monLE := List.sorted_insertionSort monLE l₂
  have p₁ : (sortByX l₁).Perm l₁ := List.perm_insertionSort monLE l₁
  have p₂ : (sortByX l₂).Perm l₂ := List.perm_insertionSort monLE l₂
  have pp : (sortByX l₁).Perm (sortByX l₂) := p₁.trans (hp.trans p₂.symm)
  have hd₁ : (sortByX l₁).Pairwise (fun a b => a.x ≠ b.x) :=
    (p₁.pairwise_iff (fun h => Ne.symm h)).mpr hd
  have hd₂ : (sortByX l₂).Pairwise (fun a b => a.x ≠ b.x) :=
    ((p₂.trans hp.symm).pairwise_iff (fun h => Ne.symm h)).mpr hd
  have hlt₁ : (sortByX l₁).Sorted monLT :=
    (hs₁.and hd₁).imp (fun hab => lt_of_le_of_ne hab.1 hab.2)
  have hlt₂ : (sortByX l₂).Sorted monLT :=
    (hs₂.and hd₂).imp (fun hab => lt_of_le_of_ne hab.1 hab.2)
  exact List.eq_of_perm_of_sorted pp hlt₁ hlt₂

/-- C8: monitor-mode resolution: "primary" picks the unique primary-flagged
monitor; a numeric ordinal i picks the i-th element (1-based) of the list
sorted by ascending horizontal origin, whose order is independent of the
OS-reported enumeration order when origins are pairwise distinct; an
out-of-range ordinal fails naming the valid range 1 to count; and the
captured image is sized exactly to the selected monitor's bounds. -/
theorem c8_monitor_resolution (screens : List Monitor) :
    (sortByX screens).length = screens.length
    ∧ (∀ t, t ∈ screens → t.primary = true →
        (∀ u, u ∈ screens → u.primary = true → u = t) →
        resolveMonitor "primary" screens = .ok t)
    ∧ (∀ m i, isDigitsStr m = true → decDigits m = i → 1 ≤ i →
        i ≤ (sortByX screens).length →
        ∃ w, (sortByX screens).get? (i - 1) = some w ∧ resolveMonitor m screens = .ok w)
    ∧ (∀ m i, isDigitsStr m = true → decDigits m = i →
        i = 0 ∨ (sortByX screens).length < i →
        resolveMonitor m screens
          = .error ("Monitor " ++ m ++ " not found. Available monitors: 1 to "
              ++ toString (sortByX screens).length))
    ∧ (∀ l₂, screens.Perm l₂ → screens.Pairwise (fun a b => a.x ≠ b.x) →
        sortByX screens = sortByX l₂)
    ∧ (∀ m t, resolveMonitor m screens = .ok t →
        captureMonitorSize m screens = .ok (t.width, t.height)) := by
  refine ⟨(List.perm_insertionSort monLE screens).length_eq, ?_, ?_, ?_, ?_, ?_⟩
  · intro t ht hp hu
    unfold resolveMonitor
    rw [if_pos (by decide), find_primary_of_unique screens t ht hp hu]
  · intro m i hdig hi h1 h2
    subst hi
    refine ⟨(sortByX screens).get ⟨decDigits m - 1, by omega⟩,
      List.get?_eq_get (by omega), ?_⟩
    unfold resolveMonitor
    rw [if_neg (by simp [digits_not_primary m hdig]), if_pos hdig,
      dif_pos ⟨by omega, by omega⟩]
    congr 1
    apply congrArg
    apply Fin.ext
    simp only [Fin.val_mk]
    omega
  · intro m i hdig hi hout
    subst hi
    unfold resolveMonitor
    rw [if_neg (by simp [digits_not_primary m hdig]), if_pos hdig, dif_neg (by omega)]
  · exact fun l₂ hp hd => sortByX_perm_eq screens l₂ hp hd
  · intro m t h
    unfold captureMonitorSize
    rw [h]

/-- C8 witness: the concrete right-monitor-first configuration: "primary"
picks the primary monitor, ordinal 2 picks the right monitor after sorting,
ordinal 3 errors with the range, order-independence against the reversed
list, and the size of a captured monitor. -/
theorem c8_monitor_resolution_witness :
    resolveMonitor "primary" exMonitors
      = .ok { x := 0, y := 0, width := 1920, height := 1080, primary := true }
    ∧ (∃ w, (sortByX exMonitors).get? (2 - 1) = some w
        ∧ resolveMonitor "2" exMonitors = .ok w)
    ∧ resolveMonitor "3" exMonitors
        = .error ("Monitor " ++ "3" ++ " not found. Available monitors: 1 to "
            ++ toString (sortByX exMonitors).length)
    ∧ sortByX exMonitors = sortByX exMonitors.reverse
    ∧ captureMonitorSize "primary" exMonitors = .ok (1920, 1080) :=
  ⟨(c8_monitor_resolution exMonitors).2.1 _ (by decide) (by decide) (by decide),
   (c8_monitor_resolution exMonitors).2.2.1 "2" 2 (by decide) (by decide) (by decide) (by decide),
   (c8_monitor_resolution exMonitors).2.2.2.1 "3" 3 (by decide) (by decide) (by decide),
   (c8_monitor_resolution exMonitors).2.2.2.2.1 exMonitors.reverse (by decide) (by decide),
   (c8_monitor_resolution exMonitors).2.2.2.2.2 "primary"
     { x := 0, y := 0, width := 1920, height := 1080, primary := true }
     ((c8_monitor_resolution exMonitors).2.1 _ (by decide) (by decide) (by decide))⟩

/-- Sanity: `strLower` agrees with the library's `String.toLower`. -/
theorem strLower_eq_toLower (s : String) : strLower s = s.toLower := by
  simp [strLower, String.toLower, String.map_eq]

/-- Sanity: `strRemoveAll` strips a trailing ".exe" and, like .NET
`String.Replace`, also removes interior occurrences. -/
theorem strRemoveAll_examples :
    strRemoveAll "notepad.exe" ".exe" = "notepad"
    ∧ strRemoveAll "my.execute" ".exe" = "mycute" := by
  refine ⟨by decide, by decide⟩
